import Mathlib

/-!
Verification of the GenSnitch evidence-acquisition and verdict-fusion pipeline.

The development shallowly embeds the TypeScript modules of the repository:

* `src/lib/report.ts` — the signal-fusion / verdict engine (`determineVerdict`,
  `calculateConfidence`, `generateNotes`, `createReport`, `createErrorReport`,
  `runAnalysis`);
* the PNG text-chunk analyzer (`parsePngTextChunks`, `analyzePngText`);
* the manifest trust classifier section of the offscreen `analyzeC2PA`;
* `src/lib/imageBytes.ts` — the acquisition selector (`decodeDataUrl`,
  `fetchHttpImageDirect`, `fetchImageInPage`, `getImageBytes`).

JavaScript strings are modelled as Lean `String`s (lists of Unicode scalar
values); byte buffers as `List Nat` whose elements are byte values.  External
capabilities (network fetches, `DecompressionStream`, host permissions) are
modelled as explicit parameters, so every embedded function is pure and total.
-/

namespace GenSnitch

/-! ## JavaScript string primitives -/

/-- `leadsWithL pat l` is true when `pat` is an initial segment of `l`
(the semantics of JavaScript `String.startsWith` on code points). -/
def leadsWithL : List Char → List Char → Bool
  | [], _ => true
  | _ :: _, [] => false
  | a :: as, b :: bs => a == b && leadsWithL as bs

/-- `containsSeg pat l` is true when `pat` occurs contiguously inside `l`
(the semantics of JavaScript `String.includes`). -/
def containsSeg (pat : List Char) : List Char → Bool
  | [] => leadsWithL pat []
  | s@(_ :: t) => leadsWithL pat s || containsSeg pat t

/-- JavaScript `s.includes(pat)`. -/
def jsIncludes (s pat : String) : Bool := containsSeg pat.data s.data

/-- JavaScript `s.startsWith(p)`. -/
def jsStartsWith (s p : String) : Bool := leadsWithL p.data s.data

/-- JavaScript `s.toLowerCase()`, restricted to the ASCII range (the only
range the pipeline's fixed pattern tables exercise). -/
def jsToLower (s : String) : String := ⟨s.data.map Char.toLower⟩

/-- First index of an element in a list, mirroring JavaScript `indexOf`
(`none` models the `-1` result). -/
def jsFindIndex {α : Type} [DecidableEq α] (t : α) : List α → Option Nat
  | [] => none
  | a :: as => if a = t then some 0 else (jsFindIndex t as).map (· + 1)

/-! ## Data model (`src/lib/types.ts`, fields as used by `report.ts` and the
offscreen C2PA analyzer) -/

inductive Verdict
  | AI_EVIDENCE
  | NO_EVIDENCE
  | ERROR
deriving DecidableEq, Repr

inductive Confidence
  | low
  | medium
  | high
deriving DecidableEq, Repr

inductive ValidationStatus
  | valid
  | invalid
  | unknown
deriving DecidableEq, Repr

inductive TrustLevel
  | trusted
  | untrusted
  | unknown
deriving DecidableEq, Repr

structure TextChunk where
  key : String
  value : String
  truncated : Bool
deriving DecidableEq, Repr

structure Certificate where
  subject : Option String
  issuer : Option String
deriving DecidableEq, Repr

structure C2PASummary where
  claimGenerator : Option String
  issuer : Option String
  certificate : Option Certificate
  actions : Option (List String)
  aiAssertions : Option (List String)
  ingredients : Option (List String)
deriving DecidableEq, Repr

structure C2PAResult where
  available : Bool
  present : Bool
  validated : ValidationStatus
  trust : TrustLevel
  summary : Option C2PASummary
  errors : Option (List String)
deriving DecidableEq, Repr

structure MetadataResult where
  found : Bool
  software : Option String
  artist : Option String
  make : Option String
  model : Option String
  creatorTool : Option String
  aiIndicators : List String
deriving DecidableEq, Repr

structure PngTextResult where
  found : Bool
  chunks : List TextChunk
  aiIndicators : List String
deriving DecidableEq, Repr

structure AnalysisSignals where
  c2pa : C2PAResult
  metadata : MetadataResult
  pngText : PngTextResult
deriving DecidableEq, Repr

structure Report where
  id : String
  url : String
  timestamp : Nat
  verdict : Verdict
  confidence : Confidence
  signals : AnalysisSignals
  notes : List String
  version : String
deriving DecidableEq, Repr

/-! ## `src/lib/report.ts` -/

def VERSION : String := "0.2.0"

/-- Known AI tool identifiers in C2PA claim generators or issuers. -/
def AI_TOOL_PATTERNS : List String :=
  [ "chatgpt", "gpt-4", "gpt4", "openai",
    "stable diffusion", "stablediffusion",
    "midjourney", "dall-e", "dalle",
    "firefly", "imagen", "flux",
    "comfyui", "automatic1111", "a1111",
    "invoke", "diffusers",
    "ideogram", "leonardo",
    "runway", "pika",
    "sora", "kling", "haiper",
    "copilot", "gemini", "claude" ]

/-- `containsAIToolPattern(text)`: `undefined` and the empty string are falsy
and yield `false`; otherwise a case-insensitive substring scan over
`AI_TOOL_PATTERNS`. -/
def containsAIToolPattern : Option String → Bool
  | none => false
  | some text =>
    if text = "" then false
    else AI_TOOL_PATTERNS.any fun pattern => jsIncludes (jsToLower text) pattern

/-- The optional chain `signals.c2pa.summary?.claimGenerator`. -/
def optClaimGenerator (signals : AnalysisSignals) : Option String :=
  signals.c2pa.summary.bind (·.claimGenerator)

/-- The optional chain `signals.c2pa.summary?.issuer`. -/
def optIssuer (signals : AnalysisSignals) : Option String :=
  signals.c2pa.summary.bind (·.issuer)

/-- The optional chain `signals.c2pa.summary?.certificate?.subject`. -/
def optCertSubject (signals : AnalysisSignals) : Option String :=
  (signals.c2pa.summary.bind (·.certificate)).bind (·.subject)

/-- The optional chain `signals.c2pa.summary?.certificate?.issuer`. -/
def optCertIssuer (signals : AnalysisSignals) : Option String :=
  (signals.c2pa.summary.bind (·.certificate)).bind (·.issuer)

/-- The optional chain `signals.c2pa.summary?.aiAssertions`. -/
def optAIAssertions (signals : AnalysisSignals) : Option (List String) :=
  signals.c2pa.summary.bind (·.aiAssertions)

/-- The optional chain `signals.c2pa.summary?.actions`. -/
def optActions (signals : AnalysisSignals) : Option (List String) :=
  signals.c2pa.summary.bind (·.actions)

/-- The truthiness test `signals.c2pa.summary?.aiAssertions &&
signals.c2pa.summary.aiAssertions.length > 0` (the form used by
`determineVerdict`; `calculateConfidence` uses the equivalent
`...?.aiAssertions?.length`). -/
def aiAssertionsNonempty (signals : AnalysisSignals) : Bool :=
  match optAIAssertions signals with
  | some l => decide (0 < l.length)
  | none => false

/-- `determineVerdict(signals)`: the sequence of early returns of the source
is flattened into one disjunction per return site, in source order. -/
def determineVerdict (signals : AnalysisSignals) : Verdict :=
  if signals.c2pa.present &&
      (aiAssertionsNonempty signals
        || containsAIToolPattern (optClaimGenerator signals)
        || containsAIToolPattern (optIssuer signals)
        || containsAIToolPattern (optCertSubject signals)
        || containsAIToolPattern (optCertIssuer signals)
        || ((optActions signals).getD []).any fun action =>
              (jsIncludes action "c2pa.created" || jsIncludes action "generated")
                && (containsAIToolPattern (optClaimGenerator signals)
                      || containsAIToolPattern (optIssuer signals))) then
    .AI_EVIDENCE
  else if 0 < signals.metadata.aiIndicators.length then .AI_EVIDENCE
  else if 0 < signals.pngText.aiIndicators.length then .AI_EVIDENCE
  else if containsAIToolPattern signals.metadata.software
      || containsAIToolPattern signals.metadata.creatorTool then .AI_EVIDENCE
  else .NO_EVIDENCE

/-- The explicit stable-diffusion parameters scan of `calculateConfidence`:
some chunk keyed `"parameters"` (case-insensitively) whose value contains
`"steps:"`. -/
def hasSDParams (signals : AnalysisSignals) : Bool :=
  signals.pngText.chunks.any fun chunk =>
    jsToLower chunk.key == "parameters" && jsIncludes (jsToLower chunk.value) "steps:"

/-- `calculateConfidence(verdict, signals)`. -/
def calculateConfidence (verdict : Verdict) (signals : AnalysisSignals) : Confidence :=
  if verdict = .ERROR then .low
  else if verdict = .NO_EVIDENCE then
    if signals.c2pa.present && decide (signals.c2pa.validated = .valid) then .high
    else if signals.metadata.found || signals.pngText.found then .medium
    else .low
  else
    let score : Nat :=
      (if signals.c2pa.present then
          (if containsAIToolPattern (optClaimGenerator signals)
              || containsAIToolPattern (optIssuer signals) then 4 else 0)
          + (if aiAssertionsNonempty signals then 3 else 0)
          + (if signals.c2pa.validated = .valid then 2 else 0)
        else 0)
      + (if 0 < signals.metadata.aiIndicators.length then
            min signals.metadata.aiIndicators.length 3 else 0)
      + (if 0 < signals.pngText.aiIndicators.length then
            min signals.pngText.aiIndicators.length 3 else 0)
      + (if hasSDParams signals then 3 else 0)
    if 5 ≤ score then .high else if 2 ≤ score then .medium else .low

/-- `generateNotes(signals, verdict)`: the ordered, append-only notes list. -/
def generateNotes (signals : AnalysisSignals) (verdict : Verdict) : List String :=
  (if signals.c2pa.present then
      ["Content Credentials (C2PA) found in image"]
      ++ (if signals.c2pa.validated = .valid then
            ["Signature cryptographically verified"]
          else if signals.c2pa.validated = .invalid then
            (if signals.c2pa.trust = .untrusted ∨ signals.c2pa.trust = .unknown then
                ["Signature valid but issuer not in trust list"]
              else ["Signature verification failed"])
          else [])
      ++ (if signals.c2pa.trust = .trusted then ["Issuer is in local trust list"]
          else if signals.c2pa.trust = .untrusted then ["Issuer is NOT in local trust list"]
          else [])
      ++ (match optClaimGenerator signals with
          | some g => ["Claim Generator: " ++ g]
          | none => [])
      ++ (match optIssuer signals with
          | some i => ["Signed by: " ++ i]
          | none => [])
      ++ (match optCertSubject signals with
          | some su => ["Certificate: " ++ su]
          | none => [])
      ++ (if aiAssertionsNonempty signals then
            ["AI Assertions: " ++ String.intercalate ", " ((optAIAssertions signals).getD [])]
          else [])
      ++ (match optActions signals with
          | some acts =>
            if 0 < acts.length then ["Actions: " ++ String.intercalate ", " acts] else []
          | none => [])
    else if signals.c2pa.available then ["No Content Credentials (C2PA) found"]
    else [])
  ++ (match signals.c2pa.errors with
      | some es => if 0 < es.length then es else []
      | none => [])
  ++ (if signals.metadata.found then
        (match signals.metadata.software with
          | some sw => ["Software: " ++ sw]
          | none => [])
        ++ (match signals.metadata.creatorTool with
            | some ct => ["Creator Tool: " ++ ct]
            | none => [])
        ++ (if 0 < signals.metadata.aiIndicators.length then
              ["Metadata AI indicators: " ++ String.intercalate ", " signals.metadata.aiIndicators]
            else [])
      else ["No EXIF/XMP metadata found in image"])
  ++ (if signals.pngText.found then
        (let relevantChunks := signals.pngText.chunks.filter fun chunk =>
            ["parameters", "prompt", "workflow", "comment", "description"].contains
              (jsToLower chunk.key)
         if 0 < relevantChunks.length then
           ["Found " ++ toString relevantChunks.length ++ " relevant PNG text chunk(s)"]
         else [])
        ++ (if 0 < signals.pngText.aiIndicators.length then
              ["PNG text AI indicators: " ++ String.intercalate ", " signals.pngText.aiIndicators]
            else [])
      else [])
  ++ (match verdict with
      | .AI_EVIDENCE =>
        ["Evidence suggests this image was created or modified by AI tools"]
      | .NO_EVIDENCE =>
        ["No evidence of AI generation found in available metadata. This does NOT guarantee the image is authentic."]
      | .ERROR => [])

/-- `createReport(url, signals)`.  The impure `generateId()` and `Date.now()`
results are passed in explicitly. -/
def createReport (id : String) (timestamp : Nat) (url : String)
    (signals : AnalysisSignals) : Report :=
  let verdict := determineVerdict signals
  { id := id
    url := url
    timestamp := timestamp
    verdict := verdict
    confidence := calculateConfidence verdict signals
    signals := signals
    notes := generateNotes signals verdict
    version := VERSION }

/-- `createErrorReport(url, error)`. -/
def createErrorReport (id : String) (timestamp : Nat) (url : String)
    (error : String) : Report :=
  { id := id
    url := url
    timestamp := timestamp
    verdict := .ERROR
    confidence := .low
    signals :=
      { c2pa :=
          { available := false
            present := false
            validated := .unknown
            trust := .unknown
            summary := none
            errors := some [error] }
        metadata :=
          { found := false, software := none, artist := none, make := none
            model := none, creatorTool := none, aiIndicators := [] }
        pngText := { found := false, chunks := [], aiIndicators := [] } }
    notes := ["Analysis failed: " ++ error]
    version := VERSION }

/-- `runAnalysis(data, url, analyzers)`.  The awaited `Promise.all` of the
three analyzers either yields the signal triple or rejects with the message of
the exception some analyzer threw; that outcome is the `Except` argument.  The
`try`/`catch` body is the match below: a rejection is converted into an
error report, never re-thrown. -/
def runAnalysis (id : String) (timestamp : Nat) (url : String)
    (analyzerOutcome : Except String AnalysisSignals) : Report :=
  match analyzerOutcome with
  | .ok signals => createReport id timestamp url signals
  | .error e => createErrorReport id timestamp url e

/-! ## Manifest trust classifier (offscreen `analyzeC2PA`, validation section)

The classifier consumes the external verifier's manifest store: its tri-state
`validation_state`, the structured `validation_results.activeManifest`
success/failure code lists, and the legacy `validation_status` code array. -/

/-- One entry of a success/failure/status code list (`{ code?: string }`). -/
structure StatusCodeEntry where
  code : Option String
deriving DecidableEq, Repr

/-- `validation_results.activeManifest`. -/
structure ActiveManifestResults where
  success : Option (List StatusCodeEntry)
  failure : Option (List StatusCodeEntry)
deriving DecidableEq, Repr

/-- `validation_results`. -/
structure ValidationResults where
  activeManifest : Option ActiveManifestResults
deriving DecidableEq, Repr

/-- `signatureValid`: the success list holds `claimSignature.validated` or
`claimSignature.insideValidity`; an absent list defaults to `false`
(the `?? false` of the source). -/
def signatureValidB (validationResults : Option ValidationResults) : Bool :=
  match (validationResults.bind (·.activeManifest)).bind (·.success) with
  | some l =>
    l.any fun s =>
      s.code == some "claimSignature.validated" || s.code == some "claimSignature.insideValidity"
  | none => false

/-- `onlyTrustFailure`: every failure entry's code contains `"untrusted"` or
`"trust"`; an entry without a code is falsy, and an absent list defaults to
`false` (the `?? false` of the source; note `every` of an empty present list
is `true`). -/
def onlyTrustFailureB (validationResults : Option ValidationResults) : Bool :=
  match (validationResults.bind (·.activeManifest)).bind (·.failure) with
  | some l =>
    l.all fun s =>
      match s.code with
      | some c => jsIncludes c "untrusted" || jsIncludes c "trust"
      | none => false
  | none => false

/-- The validation/trust decision chain of the offscreen `analyzeC2PA`
(its `validated`/`trust` assignment block). -/
def classifyValidation (validationState : Option String)
    (validationResults : Option ValidationResults)
    (validationStatus : Option (List StatusCodeEntry)) :
    ValidationStatus × TrustLevel :=
  let signatureValid := signatureValidB validationResults
  let onlyTrustFailure := onlyTrustFailureB validationResults
  if validationState = some "Trusted" then (.valid, .trusted)
  else if validationState = some "Valid" then (.valid, .untrusted)
  else if validationState = some "Invalid" then
    if signatureValid && onlyTrustFailure then (.valid, .untrusted)
    else if signatureValid then (.valid, .unknown)
    else (.invalid, .unknown)
  else
    match validationStatus with
    | some codes =>
      let hasSignatureFailure := codes.any fun s =>
        match s.code with
        | some c =>
          jsIncludes (jsToLower c) "signature"
            && (jsIncludes (jsToLower c) "error" || jsIncludes (jsToLower c) "invalid")
        | none => false
      let hasUntrusted := codes.any fun s =>
        match s.code with
        | some c => jsIncludes (jsToLower c) "untrusted"
        | none => false
      ((if hasSignatureFailure then .invalid else .valid),
        (if hasUntrusted then .untrusted else .unknown))
    | none => (.unknown, .unknown)

/-! ## Acquisition selector (`src/lib/imageBytes.ts`)

Byte buffers are `List Nat`; the browser's fetch primitives, the offscreen
document, script injection and the host-permission state are modelled as the
fields of a `FetchEnv`.  `atob` is modelled as WHATWG forgiving-base64
decoding. -/

def MAX_IMAGE_SIZE : Nat := 25 * 1024 * 1024

/-- The base64 alphabet, as a list of characters. -/
def b64Alphabet : List Char :=
  "ABCDEFGHIJKLMNOPQRSTUVWXYZabcdefghijklmnopqrstuvwxyz0123456789+/".data

/-- Character of a sextet. -/
def b64Char (i : Nat) : Char := b64Alphabet.getD i '?'

/-- Sextet of a character (`none` for a character outside the alphabet). -/
def b64Sextet (c : Char) : Option Nat := jsFindIndex c b64Alphabet

/-- ASCII whitespace, which forgiving-base64 strips before decoding. -/
def isB64Whitespace (c : Char) : Bool :=
  c = ' ' || c = '\t' || c = '\n' || c = '\x0d' || c = '\x0c'

/-- Decode a whitespace-free base64 character sequence into bytes; `=`
padding is accepted only at the end, and a leftover single character is
rejected (forgiving-base64). -/
def b64DecodeChars : List Char → Option (List Nat)
  | c1 :: c2 :: c3 :: c4 :: rest =>
    if rest = [] ∧ c3 = '=' ∧ c4 = '=' then
      match b64Sextet c1, b64Sextet c2 with
      | some s1, some s2 => some [s1 * 4 + s2 / 16]
      | _, _ => none
    else if rest = [] ∧ c4 = '=' then
      match b64Sextet c1, b64Sextet c2, b64Sextet c3 with
      | some s1, some s2, some s3 => some [s1 * 4 + s2 / 16, (s2 % 16) * 16 + s3 / 4]
      | _, _, _ => none
    else
      match b64Sextet c1, b64Sextet c2, b64Sextet c3, b64Sextet c4, b64DecodeChars rest with
      | some s1, some s2, some s3, some s4, some tail =>
        some ([s1 * 4 + s2 / 16, (s2 % 16) * 16 + s3 / 4, (s3 % 4) * 64 + s4] ++ tail)
      | _, _, _, _, _ => none
  | [] => some []
  | [c1, c2] =>
    match b64Sextet c1, b64Sextet c2 with
    | some s1, some s2 => some [s1 * 4 + s2 / 16]
    | _, _ => none
  | [c1, c2, c3] =>
    match b64Sextet c1, b64Sextet c2, b64Sextet c3 with
    | some s1, some s2, some s3 => some [s1 * 4 + s2 / 16, (s2 % 16) * 16 + s3 / 4]
    | _, _, _ => none
  | [_] => none

/-- `atob(s)` followed by the `charCodeAt` loop of `decodeDataUrl`: the
decoded binary string, taken directly as bytes.  `none` models the
`InvalidCharacterError` the platform throws on malformed input. -/
def atobBytes (s : String) : Option (List Nat) :=
  b64DecodeChars (s.data.filter fun c => !isB64Whitespace c)

/-- `decodeDataUrl(dataUrl)`: split at the first comma and base64-decode the
remainder.  Thrown exceptions are the `error` results. -/
def decodeDataUrl (dataUrl : String) : Except String (List Nat) :=
  match jsFindIndex ',' dataUrl.data with
  | none => .error "Invalid data URL format"
  | some commaIndex =>
    match atobBytes ⟨dataUrl.data.drop (commaIndex + 1)⟩ with
    | none => .error "InvalidCharacterError"
    | some bytes => .ok bytes

/-- Outcomes of the external retrieval primitives consulted by one
`getImageBytes` invocation.  `none` models a failed attempt (network error,
non-OK status, timeout, tainted canvas, ...); `some bytes` a successful one. -/
structure FetchEnv where
  /-- The ISOLATED-world file fetch: `chrome.scripting.executeScript` ran. -/
  isolatedScriptOk : Bool
  /-- XHR attempt inside `fetchFileInIsolatedWorld`. -/
  isolatedXhr : Option (List Nat)
  /-- fetch attempt inside `fetchFileInIsolatedWorld`. -/
  isolatedFetch : Option (List Nat)
  /-- Bytes returned by the offscreen document's `FETCH_FILE` handler. -/
  offscreenFile : Option (List Nat)
  /-- `chrome.scripting.executeScript` of `fetchImageInPage` ran. -/
  pageScriptOk : Bool
  /-- In-page fetch without credentials. -/
  pageFetchNoCreds : Option (List Nat)
  /-- In-page XHR without credentials. -/
  pageXhrNoCreds : Option (List Nat)
  /-- In-page fetch with credentials. -/
  pageFetchCreds : Option (List Nat)
  /-- In-page XHR with credentials. -/
  pageXhrCreds : Option (List Nat)
  /-- In-page canvas rasterization (metadata-stripping last resort). -/
  pageCanvas : Option (List Nat)
  /-- The service-worker fetch of `fetchHttpImageDirect` got an OK response. -/
  directOk : Bool
  /-- Its declared `content-length` header, when present and numeric. -/
  directContentLength : Option Nat
  /-- Its body bytes. -/
  directBody : List Nat
  /-- `chrome.permissions.contains` for the URL's origin. -/
  hasHostPermission : Bool
deriving DecidableEq, Repr

/-- `fetchFileInIsolatedWorld(fileUrl, maxSize)`: XHR first, then fetch, then
the in-world size ceiling. -/
def fetchFileInIsolatedWorld (env : FetchEnv) : Except String (List Nat) :=
  match (match env.isolatedXhr with
         | some b => some b
         | none => env.isolatedFetch) with
  | none => .error "Could not fetch file in isolated world"
  | some buffer =>
    if MAX_IMAGE_SIZE < buffer.length then
      .error ("File too large: " ++ toString buffer.length ++ " bytes")
    else .ok buffer

/-- `fetchFileInIsolated(tabId, url)`: run the isolated-world function via
script injection; injection failure or an unsuccessful result is thrown. -/
def fetchFileInIsolated (env : FetchEnv) : Except String (List Nat) :=
  if env.isolatedScriptOk then fetchFileInIsolatedWorld env
  else .error "Script execution returned no results"

/-- `fetchFileViaOffscreen(url)`: the offscreen document's `FETCH_FILE`
response (which performs no size check of its own). -/
def fetchFileViaOffscreen (env : FetchEnv) : Except String (List Nat) :=
  match env.offscreenFile with
  | some b => .ok b
  | none => .error "Offscreen file fetch failed"

/-- `fetchImageInPage(imageUrl, maxSize)`: the in-page strategy chain —
fetch without credentials, XHR without credentials, fetch with credentials,
XHR with credentials, then canvas — followed by the in-page size ceiling. -/
def fetchImageInPage (env : FetchEnv) : Except String (List Nat) :=
  let arrayBuffer :=
    match env.pageFetchNoCreds with
    | some b => some b
    | none =>
      match env.pageXhrNoCreds with
      | some b => some b
      | none =>
        match env.pageFetchCreds with
        | some b => some b
        | none =>
          match env.pageXhrCreds with
          | some b => some b
          | none => env.pageCanvas
  match arrayBuffer with
  | none => .error "Could not fetch image bytes. The site may have strict security policies."
  | some buffer =>
    if MAX_IMAGE_SIZE < buffer.length then
      .error ("Image too large: " ++ toString buffer.length
        ++ " bytes (max " ++ toString MAX_IMAGE_SIZE ++ ")")
    else .ok buffer

/-- `fetchInPageContext(tabId, url)`: inject `fetchImageInPage` and re-throw
an unsuccessful result. -/
def fetchInPageContext (env : FetchEnv) : Except String (List Nat) :=
  if env.pageScriptOk then fetchImageInPage env
  else .error "Cannot access page"

/-- `fetchHttpImageDirect(url)`: a direct service-worker fetch with the
declared-content-length ceiling and the in-hand ceiling. -/
def fetchHttpImageDirect (env : FetchEnv) : Except String (List Nat) :=
  if !env.directOk then .error "HTTP error"
  else if (match env.directContentLength with
           | some n => decide (MAX_IMAGE_SIZE < n)
           | none => false) then
    .error ("Image too large: " ++ toString ((env.directContentLength).getD 0)
      ++ " bytes (max " ++ toString MAX_IMAGE_SIZE ++ ")")
  else if MAX_IMAGE_SIZE < env.directBody.length then
    .error ("Image too large: " ++ toString env.directBody.length
      ++ " bytes (max " ++ toString MAX_IMAGE_SIZE ++ ")")
  else .ok env.directBody

/-- `getImageBytes(tabId, srcUrl)`: dispatch on the URL scheme.  Note that in
the `file://` branch the size-exceeded throw after the offscreen fetch sits
inside its own `try` block, so it falls through to the page-context method
rather than failing the call. -/
def getImageBytes (env : FetchEnv) (srcUrl : String) : Except String (List Nat) :=
  if srcUrl = "" then .error "No image URL provided"
  else if jsStartsWith srcUrl "data:" then
    match decodeDataUrl srcUrl with
    | .error e => .error e
    | .ok buffer =>
      if MAX_IMAGE_SIZE < buffer.length then
        .error ("Image too large: " ++ toString buffer.length
          ++ " bytes (max " ++ toString MAX_IMAGE_SIZE ++ ")")
      else .ok buffer
  else if jsStartsWith srcUrl "file://" then
    match fetchFileInIsolated env with
    | .ok b => .ok b
    | .error _ =>
      match fetchFileViaOffscreen env with
      | .ok buffer =>
        if MAX_IMAGE_SIZE < buffer.length then fetchInPageContext env
        else .ok buffer
      | .error _ => fetchInPageContext env
  else if jsStartsWith srcUrl "blob:" then fetchInPageContext env
  else if jsStartsWith srcUrl "http://" || jsStartsWith srcUrl "https://" then
    if env.hasHostPermission then
      match fetchHttpImageDirect env with
      | .ok b => .ok b
      | .error _ => fetchInPageContext env
    else fetchInPageContext env
  else .error ("Unsupported URL scheme: " ++ srcUrl)

/-- Modelled from the spec: "encoding arbitrary bytes as an inline locator".
The encoder itself is not part of the repository; this is standard base64
over byte triples, the inverse the inline-decoding path expects. -/
def b64Encode : List Nat → String
  | [] => ""
  | [a] => ⟨[b64Char (a / 4), b64Char ((a % 4) * 16), '=', '=']⟩
  | [a, b] =>
    ⟨[b64Char (a / 4), b64Char ((a % 4) * 16 + b / 16), b64Char ((b % 16) * 4), '=']⟩
  | a :: b :: c :: rest =>
    (⟨[b64Char (a / 4), b64Char ((a % 4) * 16 + b / 16),
       b64Char ((b % 16) * 4 + c / 64), b64Char (c % 64)]⟩ : String)
      ++ b64Encode rest

/-- Modelled from the spec: a byte sequence rendered as a base64 inline data
locator. -/
def encodeInlineLocator (bytes : List Nat) : String :=
  "data:image/png;base64," ++ b64Encode bytes

/-! ## PNG text-chunk analyzer

`decodeString` models `new TextDecoder('utf-8', { fatal: false }).decode`
as UTF-8 decoding with U+FFFD replacement.  The raw-deflate step of
`DecompressionStream('deflate')` is an external capability, passed in as an
`inflateRaw : List Nat → Option (List Nat)` parameter (`none` models a stream
error). -/

/-- The replacement character emitted for malformed UTF-8. -/
def replChar : Char := Char.ofNat 0xFFFD

/-- A UTF-8 continuation byte. -/
def isCont (b : Nat) : Bool := 0x80 ≤ b && b ≤ 0xBF

/-- UTF-8 decoding with replacement, of a byte list into code points. -/
def utf8Decode : List Nat → List Char
  | [] => []
  | b1 :: rest =>
    if b1 ≤ 0x7F then Char.ofNat b1 :: utf8Decode rest
    else if 0xC2 ≤ b1 ∧ b1 ≤ 0xDF then
      match rest with
      | [] => [replChar]
      | b2 :: rest2 =>
        if isCont b2 then Char.ofNat ((b1 - 0xC0) * 64 + (b2 - 0x80)) :: utf8Decode rest2
        else replChar :: utf8Decode (b2 :: rest2)
    else if 0xE0 ≤ b1 ∧ b1 ≤ 0xEF then
      let lo := if b1 = 0xE0 then 0xA0 else 0x80
      let hi := if b1 = 0xED then 0x9F else 0xBF
      match rest with
      | [] => [replChar]
      | [b2] => if lo ≤ b2 ∧ b2 ≤ hi then [replChar] else replChar :: utf8Decode [b2]
      | b2 :: b3 :: rest3 =>
        if lo ≤ b2 ∧ b2 ≤ hi then
          if isCont b3 then
            Char.ofNat ((b1 - 0xE0) * 4096 + (b2 - 0x80) * 64 + (b3 - 0x80))
              :: utf8Decode rest3
          else replChar :: utf8Decode (b3 :: rest3)
        else replChar :: utf8Decode (b2 :: b3 :: rest3)
    else if 0xF0 ≤ b1 ∧ b1 ≤ 0xF4 then
      let lo := if b1 = 0xF0 then 0x90 else 0x80
      let hi := if b1 = 0xF4 then 0x8F else 0xBF
      match rest with
      | [] => [replChar]
      | [b2] => if lo ≤ b2 ∧ b2 ≤ hi then [replChar] else replChar :: utf8Decode [b2]
      | [b2, b3] =>
        if lo ≤ b2 ∧ b2 ≤ hi then
          if isCont b3 then [replChar] else replChar :: utf8Decode [b3]
        else replChar :: utf8Decode [b2, b3]
      | b2 :: b3 :: b4 :: rest4 =>
        if lo ≤ b2 ∧ b2 ≤ hi then
          if isCont b3 then
            if isCont b4 then
              Char.ofNat ((b1 - 0xF0) * 262144 + (b2 - 0x80) * 4096
                  + (b3 - 0x80) * 64 + (b4 - 0x80))
                :: utf8Decode rest4
            else replChar :: utf8Decode (b4 :: rest4)
          else replChar :: utf8Decode (b3 :: b4 :: rest4)
        else replChar :: utf8Decode (b2 :: b3 :: b4 :: rest4)
    else replChar :: utf8Decode rest

/-- `decodeString(data)`. -/
def decodeString (data : List Nat) : String := ⟨utf8Decode data⟩

/-- The 8-byte PNG signature. -/
def pngSignature : List Nat := [0x89, 0x50, 0x4e, 0x47, 0x0d, 0x0a, 0x1a, 0x0a]

/-- `isPNG(data)`: length guard, then a byte-wise signature comparison. -/
def isPNG (data : List Nat) : Bool :=
  if data.length < 8 then false
  else (List.range 8).all fun i => data.getD i 0 == pngSignature.getD i 0

/-- `readUint32BE(data, offset)`.  Out-of-range accesses read as `0`, as the
source's coerced `undefined` does under JavaScript's shift-and-or. -/
def readUint32BE (data : List Nat) (offset : Nat) : Nat :=
  data.getD offset 0 * 16777216 + data.getD (offset + 1) 0 * 65536
    + data.getD (offset + 2) 0 * 256 + data.getD (offset + 3) 0

/-- `data.slice(start, stop)` of a `Uint8Array` (with in-range arguments). -/
def jsSlice (data : List Nat) (start stop : Nat) : List Nat :=
  (data.drop start).take (stop - start)

/-- `tryDecompress(data)`: the zlib header check, then raw-deflate
decompression of the remainder (the external `DecompressionStream`), then
text decoding.  All failures are `none`. -/
def tryDecompress (inflateRaw : List Nat → Option (List Nat)) (data : List Nat) :
    Option String :=
  if data.length < 2 then none
  else if (data.getD 0 0 * 256 + data.getD 1 0) % 31 ≠ 0 then none
  else
    match inflateRaw (data.drop 2) with
    | some out => some (decodeString out)
    | none => none

/-- One parsed text chunk of `parsePngTextChunks`. -/
structure PngChunk where
  type : String
  key : String
  value : String
deriving DecidableEq, Repr

/-- One step of the iTXt field-skipping loop: advance to just past the next
null byte (or just past the end, mirroring the unconditional `textStart++`). -/
def scanPastNull (l : List Nat) (i : Nat) : Nat :=
  if h : i < l.length then
    if l.getD i 0 = 0 then i + 1 else scanPastNull l (i + 1)
  else i + 1
termination_by l.length - i

/-- The `while` loop of `parsePngTextChunks`, from a given chunk offset:
read the 4-byte big-endian length and 4-byte type, stop when the declared
length runs past the buffer or at `IEND`, and collect tEXt/zTXt/iTXt
key/value pairs. -/
def parseChunksLoop (inflateRaw : List Nat → Option (List Nat)) (data : List Nat)
    (offset : Nat) : List PngChunk :=
  if h : offset < data.length - 12 then
    let length := readUint32BE data offset
    let type := decodeString (jsSlice data (offset + 4) (offset + 8))
    if length > data.length - offset - 12 then []
    else
      let chunkData := jsSlice data (offset + 8) (offset + 8 + length)
      if type = "IEND" then []
      else
        let this : List PngChunk :=
          if type = "tEXt" then
            match jsFindIndex 0 chunkData with
            | some nullIndex =>
              if 0 < nullIndex then
                [{ type := type
                   key := decodeString (jsSlice chunkData 0 nullIndex)
                   value := decodeString (chunkData.drop (nullIndex + 1)) }]
              else []
            | none => []
          else if type = "zTXt" then
            match jsFindIndex 0 chunkData with
            | some nullIndex =>
              if 0 < nullIndex ∧ nullIndex + 2 < chunkData.length then
                if chunkData.getD (nullIndex + 1) 0 = 0 then
                  match tryDecompress inflateRaw (chunkData.drop (nullIndex + 2)) with
                  | some decompressed =>
                    [{ type := type
                       key := decodeString (jsSlice chunkData 0 nullIndex)
                       value := decompressed }]
                  | none =>
                    [{ type := type
                       key := decodeString (jsSlice chunkData 0 nullIndex)
                       value := "[compressed - decompression failed]" }]
                else []
              else []
            | none => []
          else if type = "iTXt" then
            match jsFindIndex 0 chunkData with
            | some nullIndex =>
              if 0 < nullIndex then
                let key := decodeString (jsSlice chunkData 0 nullIndex)
                let compressionFlag := chunkData.getD (nullIndex + 1) 0
                let textStart := scanPastNull chunkData (scanPastNull chunkData (nullIndex + 3))
                if textStart < chunkData.length then
                  let textData := chunkData.drop textStart
                  if compressionFlag = 1 then
                    match tryDecompress inflateRaw textData with
                    | some decompressed => [{ type := type, key := key, value := decompressed }]
                    | none =>
                      [{ type := type, key := key
                         value := "[compressed - decompression failed]" }]
                  else [{ type := type, key := key, value := decodeString textData }]
                else []
              else []
            | none => []
          else []
        this ++ parseChunksLoop inflateRaw data (offset + 12 + length)
  else []
termination_by data.length - offset
decreasing_by omega

/-- `parsePngTextChunks(data)`: start just past the signature. -/
def parsePngTextChunks (inflateRaw : List Nat → Option (List Nat))
    (data : List Nat) : List PngChunk :=
  parseChunksLoop inflateRaw data 8

def MAX_CHUNK_DISPLAY_LENGTH : Nat := 500

/-- AI-related keys commonly found in PNG text chunks. -/
def AI_RELATED_KEYS : List String :=
  [ "parameters", "sd-metadata", "prompt", "negative_prompt", "negativeprompt",
    "workflow", "comfyui", "automatic1111", "a1111", "dream", "generation_data",
    "ai_metadata", "source", "comment", "description", "software", "creator" ]

/-- Patterns indicating AI generation in chunk values. -/
def AI_VALUE_PATTERNS : List String :=
  [ "steps:", "sampler:", "cfg scale:", "seed:", "model:", "model hash:",
    "clip skip:", "lora:", "negative prompt:", "stable diffusion", "comfyui",
    "automatic1111", "midjourney", "dall-e", "flux", "sdxl" ]

/-- `findChunkAIIndicators(value)`. -/
def findChunkAIIndicators (value : String) : List String :=
  AI_VALUE_PATTERNS.filter fun pattern => jsIncludes (jsToLower value) (jsToLower pattern)

/-- The per-chunk post-processing loop of `analyzePngText`: deduplicated
indicator collection (value patterns first, then the AI-related key) and the
500-character display truncation.  `seen` carries the lowercased indicators
already recorded. -/
def analyzeChunksLoop : List PngChunk → List String → List TextChunk × List String
  | [], _ => ([], [])
  | chunk :: rest, seen =>
    let isAIKey := AI_RELATED_KEYS.any fun aiKey => jsIncludes (jsToLower chunk.key) aiKey
    let valueIndicators := findChunkAIIndicators chunk.value
    let step := valueIndicators.foldl
      (fun (acc : List String × List String) indicator =>
        let lower := jsToLower indicator
        if acc.1.contains lower then acc
        else (acc.1 ++ [lower], acc.2 ++ [indicator]))
      (seen, [])
    let step2 :=
      if isAIKey && !step.1.contains (jsToLower chunk.key) then
        (step.1 ++ [jsToLower chunk.key], step.2 ++ ["PNG key: " ++ chunk.key])
      else step
    let truncated := MAX_CHUNK_DISPLAY_LENGTH < chunk.value.length
    let displayValue :=
      if truncated then (⟨chunk.value.data.take MAX_CHUNK_DISPLAY_LENGTH⟩ : String)
      else chunk.value
    let tail := analyzeChunksLoop rest step2.1
    ({ key := chunk.key, value := displayValue, truncated := truncated } :: tail.1,
      step2.2 ++ tail.2)

/-- `analyzePngText(data)`: signature check, raw chunk parse, then
post-processing; an empty raw chunk list yields `found = false`. -/
def analyzePngText (inflateRaw : List Nat → Option (List Nat))
    (data : List Nat) : PngTextResult :=
  if !isPNG data then { found := false, chunks := [], aiIndicators := [] }
  else
    let rawChunks := parsePngTextChunks inflateRaw data
    if rawChunks.length = 0 then { found := false, chunks := [], aiIndicators := [] }
    else
      let processed := analyzeChunksLoop rawChunks []
      { found := true, chunks := processed.1, aiIndicators := processed.2 }

/-- Big-endian 4-byte encoding of a 32-bit value (used to build concrete
chunk streams in the theorems below). -/
def be32 (n : Nat) : List Nat :=
  [n / 16777216 % 256, n / 65536 % 256, n / 256 % 256, n % 256]

/-! ## Spec-side definitions and concrete inputs used by the theorems -/

/-- The confidence quantization stated by the spec for AI_EVIDENCE:
high iff the score is at least 5, medium iff at least 2, else low. -/
def bucketC3 (score : Nat) : Confidence :=
  if 5 ≤ score then .high else if 2 ≤ score then .medium else .low

/-- The additive AI_EVIDENCE score exactly as the claim words it: +4 if the
manifest is present and its claim generator or issuer matches the AI-tool
list, +3 if any AI assertion is present, +2 if validated=valid, plus the two
capped indicator counts, plus +3 for a structured-parameter chunk. -/
def claimScoreC3 (s : AnalysisSignals) : Nat :=
  (if s.c2pa.present
      && (containsAIToolPattern (optClaimGenerator s) || containsAIToolPattern (optIssuer s))
    then 4 else 0)
  + (if aiAssertionsNonempty s then 3 else 0)
  + (if s.c2pa.validated = .valid then 2 else 0)
  + min s.metadata.aiIndicators.length 3
  + min s.pngText.aiIndicators.length 3
  + (if hasSDParams s then 3 else 0)

/-- The amended AI_EVIDENCE score: as `claimScoreC3`, but the AI-assertion
and validated-signature terms also require the manifest to be present (the
source computes them inside the `signals.c2pa.present` block). -/
def amendedScoreC3 (s : AnalysisSignals) : Nat :=
  (if s.c2pa.present
      && (containsAIToolPattern (optClaimGenerator s) || containsAIToolPattern (optIssuer s))
    then 4 else 0)
  + (if s.c2pa.present && aiAssertionsNonempty s then 3 else 0)
  + (if s.c2pa.present = true ∧ s.c2pa.validated = .valid then 2 else 0)
  + min s.metadata.aiIndicators.length 3
  + min s.pngText.aiIndicators.length 3
  + (if hasSDParams s then 3 else 0)

/-- A signal triple with an absent manifest whose summary nevertheless lists
an AI assertion and whose validation state is `valid`, plus one metadata AI
indicator: the verdict is AI_EVIDENCE via the metadata rule, the source
scores it 1 (low), but the claim's unguarded formula scores it 6 (high). -/
def sC3 : AnalysisSignals :=
  { c2pa :=
      { available := true
        present := false
        validated := .valid
        trust := .unknown
        summary := some
          { claimGenerator := none, issuer := none, certificate := none
            actions := none, aiAssertions := some ["com.example.ai-generated"]
            ingredients := none }
        errors := none }
    metadata :=
      { found := false, software := none, artist := none, make := none
        model := none, creatorTool := none, aiIndicators := ["stable diffusion"] }
    pngText := { found := false, chunks := [], aiIndicators := [] } }

/-- A no-failure inflate stub for concrete PNG witnesses. -/
def inflateNone : List Nat → Option (List Nat) := fun _ => none

/-- A baseline environment in which every external primitive fails and no
permission is held. -/
def envBase : FetchEnv :=
  { isolatedScriptOk := false, isolatedXhr := none, isolatedFetch := none
    offscreenFile := none, pageScriptOk := false, pageFetchNoCreds := none
    pageXhrNoCreds := none, pageFetchCreds := none, pageXhrCreds := none
    pageCanvas := none, directOk := false, directContentLength := none
    directBody := [], hasHostPermission := false }

/-- An environment without a host grant whose in-page fetch succeeds. -/
def envC7 : FetchEnv :=
  { envBase with pageScriptOk := true, pageFetchNoCreds := some [1, 2, 3] }

/-- An environment with a host grant and a successful direct fetch. -/
def envC6 : FetchEnv :=
  { envBase with hasHostPermission := true, directOk := true, directBody := [7, 7] }

/-- An environment whose direct fetch declares an oversized content length. -/
def envC6big : FetchEnv :=
  { envBase with hasHostPermission := true, directOk := true
                 directContentLength := some (MAX_IMAGE_SIZE + 1)
                 directBody := [] }

/-- A summary carrying one AI assertion. -/
def smC1 : C2PASummary :=
  { claimGenerator := none, issuer := none, certificate := none
    actions := none, aiAssertions := some ["c2pa.ai_generative_training"]
    ingredients := none }

/-- A signal triple with a present manifest carrying an AI assertion; every
other field is inert. -/
def sC1 : AnalysisSignals :=
  { c2pa :=
      { available := true, present := true, validated := .unknown
        trust := .unknown, summary := some smC1, errors := none }
    metadata :=
      { found := false, software := none, artist := none, make := none
        model := none, creatorTool := none, aiIndicators := [] }
    pngText := { found := false, chunks := [], aiIndicators := [] } }

/-- A present, validly signed manifest with no other signal. -/
def sC4high : AnalysisSignals :=
  { c2pa :=
      { available := true, present := true, validated := .valid
        trust := .trusted, summary := none, errors := none }
    metadata :=
      { found := false, software := none, artist := none, make := none
        model := none, creatorTool := none, aiIndicators := [] }
    pngText := { found := false, chunks := [], aiIndicators := [] } }

/-- No manifest and no found signal at all. -/
def sC4low : AnalysisSignals :=
  { c2pa :=
      { available := true, present := false, validated := .unknown
        trust := .unknown, summary := none, errors := none }
    metadata :=
      { found := false, software := none, artist := none, make := none
        model := none, creatorTool := none, aiIndicators := [] }
    pngText := { found := false, chunks := [], aiIndicators := [] } }

/-! ## Theorems -/

/-- C1: for every `AnalysisSignals` input with `c2pa.present = true` and a
non-empty `c2pa.summary.aiAssertions` list, `determineVerdict` returns
`AI_EVIDENCE`, regardless of every other field of the three signal sets. -/
theorem C1_ai_assertions_dominate (s : AnalysisSignals) (sm : C2PASummary)
    (l : List String) (hp : s.c2pa.present = true) (hs : s.c2pa.summary = some sm)
    (ha : sm.aiAssertions = some l) (hl : l ≠ []) :
    determineVerdict s = .AI_EVIDENCE := by
  have hlen : 0 < l.length := List.length_pos.mpr hl
  have hne : aiAssertionsNonempty s = true := by
    simp [aiAssertionsNonempty, optAIAssertions, hs, ha, hlen]
  simp [determineVerdict, hp, hne]

/-- Witness for C1 at a concrete signal triple. -/
theorem C1_ai_assertions_dominate_witness : determineVerdict sC1 = .AI_EVIDENCE :=
  C1_ai_assertions_dominate sC1 smC1 ["c2pa.ai_generative_training"]
    rfl rfl rfl (by decide)

/-- C2: a manifest-verification result with reported state `"Invalid"`, a
success list containing a signature-validated marker, and failure codes all
containing a trust token, classifies as `validated = valid`,
`trust = untrusted`. -/
theorem C2_invalid_reclassified_valid_untrusted
    (succ fails : List StatusCodeEntry) (vstat : Option (List StatusCodeEntry))
    (hs : ∃ sc ∈ succ, sc.code = some "claimSignature.validated"
        ∨ sc.code = some "claimSignature.insideValidity")
    (hf : ∀ f ∈ fails, ∃ c, f.code = some c
        ∧ (jsIncludes c "untrusted" = true ∨ jsIncludes c "trust" = true)) :
    classifyValidation (some "Invalid") (some ⟨some ⟨some succ, some fails⟩⟩) vstat
      = (.valid, .untrusted) := by
  have hsv : signatureValidB (some ⟨some ⟨some succ, some fails⟩⟩) = true := by
    show (succ.any fun s =>
      s.code == some "claimSignature.validated"
        || s.code == some "claimSignature.insideValidity") = true
    simp only [List.any_eq_true]
    obtain ⟨sc, hmem, hc⟩ := hs
    exact ⟨sc, hmem, by rcases hc with h | h <;> simp [h]⟩
  have hot : onlyTrustFailureB (some ⟨some ⟨some succ, some fails⟩⟩) = true := by
    show (fails.all fun s =>
      match s.code with
      | some c => jsIncludes c "untrusted" || jsIncludes c "trust"
      | none => false) = true
    simp only [List.all_eq_true]
    intro f hmem
    obtain ⟨c, hc, ht⟩ := hf f hmem
    rcases ht with h | h <;> simp [hc, h]
  simp [classifyValidation, hsv, hot]

/-- Witness for C2 at a concrete verification result. -/
theorem C2_invalid_reclassified_valid_untrusted_witness :
    classifyValidation (some "Invalid")
      (some ⟨some ⟨some [⟨some "claimSignature.validated"⟩],
                   some [⟨some "signingCredential.untrusted"⟩]⟩⟩) none
      = (.valid, .untrusted) :=
  C2_invalid_reclassified_valid_untrusted
    [⟨some "claimSignature.validated"⟩] [⟨some "signingCredential.untrusted"⟩] none
    ⟨⟨some "claimSignature.validated"⟩, by decide, by decide⟩
    (by intro f hmem
        simp only [List.mem_singleton] at hmem
        exact ⟨"signingCredential.untrusted", by simp [hmem], by decide⟩)

/-- C3 counterexample: at `sC3` the verdict is AI_EVIDENCE, the source
computes confidence `low`, but the claim's score formula (with the
AI-assertion and validated terms not guarded by manifest presence)
quantizes to `high`. -/
theorem C3_counterexample :
    determineVerdict sC3 = .AI_EVIDENCE
      ∧ calculateConfidence .AI_EVIDENCE sC3 = .low
      ∧ bucketC3 (claimScoreC3 sC3) = .high := by
  decide

/-- C3 amended: for every input whose verdict is AI_EVIDENCE, the confidence
bucket equals the quantization of the additive score in which the
AI-assertion (+3) and validated-signature (+2) terms also require the
manifest to be present. -/
theorem C3_amended_additive_confidence (s : AnalysisSignals)
    (hv : determineVerdict s = .AI_EVIDENCE) :
    calculateConfidence .AI_EVIDENCE s = bucketC3 (amendedScoreC3 s) := by
  have hmin : ∀ n : Nat, (if 0 < n then min n 3 else 0) = min n 3 := by
    intro n; cases n <;> simp
  cases hp : s.c2pa.present <;>
    simp [calculateConfidence, amendedScoreC3, bucketC3, hp, hmin]

/-- Witness for the amended C3 at the concrete `sC3`. -/
theorem C3_amended_additive_confidence_witness :
    calculateConfidence .AI_EVIDENCE sC3 = bucketC3 (amendedScoreC3 sC3) :=
  C3_amended_additive_confidence sC3 (by decide)

/-- C4: for a NO_EVIDENCE verdict the confidence is high when a manifest is
present with `validated = valid`; otherwise medium when the metadata decoder
or the PNG chunk parser found anything; otherwise low. -/
theorem C4_no_evidence_confidence (s : AnalysisSignals) :
    (s.c2pa.present = true → s.c2pa.validated = .valid →
        calculateConfidence .NO_EVIDENCE s = .high)
    ∧ (¬(s.c2pa.present = true ∧ s.c2pa.validated = .valid) →
        (s.metadata.found = true ∨ s.pngText.found = true) →
        calculateConfidence .NO_EVIDENCE s = .medium)
    ∧ (¬(s.c2pa.present = true ∧ s.c2pa.validated = .valid) →
        s.metadata.found = false → s.pngText.found = false →
        calculateConfidence .NO_EVIDENCE s = .low) := by
  have hcondOf : ¬(s.c2pa.present = true ∧ s.c2pa.validated = .valid) →
      (s.c2pa.present && decide (s.c2pa.validated = .valid)) = false := by
    intro hnot
    cases hpres : s.c2pa.present
    · simp [hpres]
    · simp only [hpres, Bool.true_and, decide_eq_false_iff_not]
      intro hv
      exact hnot ⟨hpres, hv⟩
  refine ⟨?_, ?_, ?_⟩
  · intro hp hv
    simp [calculateConfidence, hp, hv]
  · intro hnot hfound
    rcases hfound with h | h <;> simp [calculateConfidence, hcondOf hnot, h]
  · intro hnot hm hpng
    simp [calculateConfidence, hcondOf hnot, hm, hpng]

/-- Witness for C4 at two concrete signal triples (the spec's end-to-end
pair: bare image low, valid manifest high). -/
theorem C4_no_evidence_confidence_witness :
    calculateConfidence .NO_EVIDENCE sC4high = .high
      ∧ calculateConfidence .NO_EVIDENCE sC4low = .low :=
  ⟨(C4_no_evidence_confidence sC4high).1 rfl rfl,
    (C4_no_evidence_confidence sC4low).2.2 (by decide) rfl rfl⟩

/-- C8: a rejected analyzer produces an ERROR report with low confidence and
the exception message as the sole note (the pipeline returns rather than
re-throwing), and an ERROR verdict always maps to low confidence. -/
theorem C8_error_report_pipeline :
    (∀ (id : String) (ts : Nat) (url e : String),
        (runAnalysis id ts url (.error e)).verdict = .ERROR
        ∧ (runAnalysis id ts url (.error e)).confidence = .low
        ∧ (runAnalysis id ts url (.error e)).notes = ["Analysis failed: " ++ e])
    ∧ (∀ s : AnalysisSignals, calculateConfidence .ERROR s = .low) := by
  constructor
  · intro id ts url e
    exact ⟨rfl, rfl, rfl⟩
  · intro s
    simp [calculateConfidence]



theorem readUint32BE_cons4 (a b c d : Nat) (rest : List Nat) :
    readUint32BE (a :: b :: c :: d :: rest) 0 = a * 16777216 + b * 65536 + c * 256 + d := rfl

theorem readUint32BE_be32 (n : Nat) (rest : List Nat) (h : n < 4294967296) :
    readUint32BE (be32 n ++ rest) 0 = n := by
  simp only [be32, List.cons_append, List.nil_append, readUint32BE_cons4]
  omega

theorem getD_drop_add (l : List Nat) (n i : Nat) :
    l.getD (n + i) 0 = (l.drop n).getD i 0 := by
  rw [List.getD_eq_getElem?_getD, List.getD_eq_getElem?_getD, List.getElem?_drop]

theorem readUint32BE_of_drop (l : List Nat) (n : Nat) (suffix : List Nat)
    (h : l.drop n = suffix) : readUint32BE l n = readUint32BE suffix 0 := by
  have e : ∀ i, suffix.getD i 0 = l.getD (n + i) 0 := by
    intro i
    rw [← h]
    exact (getD_drop_add l n i).symm
  unfold readUint32BE
  rw [e, e, e, e]
  norm_num

theorem jsFindIndex_append_cons {α : Type} [DecidableEq α] (t : α) (l1 l2 : List α)
    (h : ∀ a ∈ l1, a ≠ t) : jsFindIndex t (l1 ++ t :: l2) = some l1.length := by
  induction l1 with
  | nil => simp [jsFindIndex]
  | cons a as ih =>
    have ha : a ≠ t := h a (by simp)
    simp [jsFindIndex, ha, ih fun x hx => h x (by simp [hx])]

theorem parseChunksLoop_stops_overrun (inflateRaw : List Nat → Option (List Nat))
    (data : List Nat) (offset : Nat) (hguard : offset < data.length - 12)
    (hov : readUint32BE data offset > data.length - offset - 12) :
    parseChunksLoop inflateRaw data offset = [] := by
  unfold parseChunksLoop
  rw [dif_pos hguard]
  simp only [if_pos hov]



theorem parseChunksLoop_step_tEXt (inflateRaw : List Nat → Option (List Nat))
    (data : List Nat) (offset : Nat) (keyB valB : List Nat)
    (hguard : offset < data.length - 12)
    (hlen : readUint32BE data offset = keyB.length + 1 + valB.length)
    (hnov : ¬ (keyB.length + 1 + valB.length > data.length - offset - 12))
    (htype : jsSlice data (offset + 4) (offset + 8) = [0x74, 0x45, 0x58, 0x74])
    (hchunk : jsSlice data (offset + 8) (offset + 8 + (keyB.length + 1 + valB.length))
        = keyB ++ 0 :: valB)
    (hkey0 : ∀ b ∈ keyB, b ≠ 0) (hkeyne : keyB ≠ []) :
    parseChunksLoop inflateRaw data offset
      = { type := "tEXt", key := decodeString keyB, value := decodeString valB }
          :: parseChunksLoop inflateRaw data (offset + 12 + (keyB.length + 1 + valB.length)) := by
  have hfind : jsFindIndex 0 (keyB ++ 0 :: valB) = some keyB.length :=
    jsFindIndex_append_cons 0 keyB valB hkey0
  have hkpos : 0 < keyB.length := List.length_pos.mpr hkeyne
  have hkey : jsSlice (keyB ++ 0 :: valB) 0 keyB.length = keyB := by
    unfold jsSlice
    simp only [List.drop_zero, Nat.sub_zero]
    exact List.take_left' rfl
  have hval : (keyB ++ 0 :: valB).drop (keyB.length + 1) = valB := by
    rw [List.drop_append 1]
    rfl
  have hdec : decodeString [0x74, 0x45, 0x58, 0x74] = "tEXt" := by decide
  conv_lhs => rw [parseChunksLoop.eq_def]
  rw [dif_pos hguard]
  simp only [hlen, htype, hdec, hchunk, hfind, hkey, hval]
  rw [if_neg hnov, if_neg (by decide : ¬("tEXt" : String) = "IEND")]
  simp [hkpos]



theorem parse_keeps_prefix_before_overrun
    (inflateRaw : List Nat → Option (List Nat)) (keyB valB crc junk : List Nat)
    (L : Nat) (hkey0 : ∀ b ∈ keyB, b ≠ 0) (hkeyne : keyB ≠ [])
    (hcrc : crc.length = 4)
    (hp32 : keyB.length + 1 + valB.length < 4294967296)
    (hL32 : L < 4294967296) (hjunk : 9 ≤ junk.length)
    (hover : junk.length - 8 < L) :
    parsePngTextChunks inflateRaw
      (pngSignature ++ (be32 (keyB.length + 1 + valB.length)
        ++ ([0x74, 0x45, 0x58, 0x74]
          ++ (keyB ++ ([0] ++ (valB ++ (crc ++ (be32 L ++ junk))))))))
      = [{ type := "tEXt", key := decodeString keyB, value := decodeString valB }] := by
  set D := pngSignature ++ (be32 (keyB.length + 1 + valB.length)
    ++ ([0x74, 0x45, 0x58, 0x74]
      ++ (keyB ++ ([0] ++ (valB ++ (crc ++ (be32 L ++ junk))))))) with hD
  have hlenD : D.length = 24 + (keyB.length + 1 + valB.length) + junk.length := by
    rw [hD]
    simp [pngSignature, be32, hcrc]
    omega
  have d8 : D.drop 8 = be32 (keyB.length + 1 + valB.length)
      ++ ([0x74, 0x45, 0x58, 0x74]
        ++ (keyB ++ ([0] ++ (valB ++ (crc ++ (be32 L ++ junk)))))) := by
    rw [hD]
    exact List.drop_left' rfl
  have d12 : D.drop 12 = [0x74, 0x45, 0x58, 0x74]
      ++ (keyB ++ ([0] ++ (valB ++ (crc ++ (be32 L ++ junk))))) := by
    rw [show (12 : Nat) = 8 + 4 from rfl, ← List.drop_drop, d8]
    exact List.drop_left' (by simp [be32])
  have d16 : D.drop 16 = keyB ++ ([0] ++ (valB ++ (crc ++ (be32 L ++ junk)))) := by
    rw [show (16 : Nat) = 12 + 4 from rfl, ← List.drop_drop, d12]
    exact List.drop_left' rfl
  have d20p : D.drop (20 + (keyB.length + 1 + valB.length)) = be32 L ++ junk := by
    rw [show 20 + (keyB.length + 1 + valB.length)
          = 16 + (keyB.length + 1 + valB.length + 4) from by omega,
      ← List.drop_drop, d16]
    rw [show keyB ++ ([0] ++ (valB ++ (crc ++ (be32 L ++ junk))))
          = (keyB ++ [0] ++ valB ++ crc) ++ (be32 L ++ junk) from by
        simp [List.append_assoc]]
    exact List.drop_left' (by simp [hcrc]; omega)
  have hread8 : readUint32BE D 8 = keyB.length + 1 + valB.length := by
    rw [readUint32BE_of_drop D 8 _ d8]
    exact readUint32BE_be32 _ _ hp32
  have hread2 : readUint32BE D (20 + (keyB.length + 1 + valB.length)) = L := by
    rw [readUint32BE_of_drop D _ _ d20p]
    exact readUint32BE_be32 _ _ hL32
  have htype : jsSlice D 12 16 = [0x74, 0x45, 0x58, 0x74] := by
    unfold jsSlice
    rw [d12, show (16 : Nat) - 12 = 4 from rfl]
    exact List.take_left' rfl
  have hchunk : jsSlice D 16 (16 + (keyB.length + 1 + valB.length)) = keyB ++ 0 :: valB := by
    unfold jsSlice
    rw [d16, show 16 + (keyB.length + 1 + valB.length) - 16
          = keyB.length + 1 + valB.length from by omega]
    rw [show keyB ++ ([0] ++ (valB ++ (crc ++ (be32 L ++ junk))))
          = (keyB ++ [0] ++ valB) ++ (crc ++ (be32 L ++ junk)) from by
        simp [List.append_assoc]]
    rw [List.take_left' (by simp; omega)]
    simp
  have hkpos : 0 < keyB.length := List.length_pos.mpr hkeyne
  have hguard1 : 8 < D.length - 12 := by omega
  have hnov1 : ¬ (keyB.length + 1 + valB.length > D.length - 8 - 12) := by omega
  have hguard2 : 8 + 12 + (keyB.length + 1 + valB.length) < D.length - 12 := by omega
  have hov2 : readUint32BE D (8 + 12 + (keyB.length + 1 + valB.length))
      > D.length - (8 + 12 + (keyB.length + 1 + valB.length)) - 12 := by
    have e : (8 + 12 + (keyB.length + 1 + valB.length) : Nat)
        = 20 + (keyB.length + 1 + valB.length) := by norm_num
    rw [e, hread2]
    omega
  unfold parsePngTextChunks
  rw [parseChunksLoop_step_tEXt inflateRaw D 8 keyB valB hguard1 hread8 hnov1 htype hchunk
    hkey0 hkeyne]
  rw [parseChunksLoop_stops_overrun inflateRaw D _ hguard2 hov2]



theorem isPNG_eq_true_iff (data : List Nat) :
    isPNG data = true ↔ data.take 8 = pngSignature := by
  rcases data with _ | ⟨a, _ | ⟨b, _ | ⟨c, _ | ⟨d, _ | ⟨e, _ | ⟨f, _ | ⟨g, _ | ⟨h, t⟩⟩⟩⟩⟩⟩⟩⟩
  case nil => simp [isPNG, pngSignature]
  case cons.nil => simp [isPNG, pngSignature]
  case cons.cons.nil => simp [isPNG, pngSignature]
  case cons.cons.cons.nil => simp [isPNG, pngSignature]
  case cons.cons.cons.cons.nil => simp [isPNG, pngSignature]
  case cons.cons.cons.cons.cons.nil => simp [isPNG, pngSignature]
  case cons.cons.cons.cons.cons.cons.nil => simp [isPNG, pngSignature]
  case cons.cons.cons.cons.cons.cons.cons.nil => simp [isPNG, pngSignature]
  case cons.cons.cons.cons.cons.cons.cons.cons =>
    have hr : List.range 8 = [0, 1, 2, 3, 4, 5, 6, 7] := rfl
    have htake : (a :: b :: c :: d :: e :: f :: g :: h :: t).take 8
        = [a, b, c, d, e, f, g, h] := rfl
    have hlen : ¬ (a :: b :: c :: d :: e :: f :: g :: h :: t).length < 8 := by
      simp [List.length_cons]
    unfold isPNG
    rw [if_neg hlen, hr, htake]
    have g0 : (a :: b :: c :: d :: e :: f :: g :: h :: t).getD 0 0 = a := rfl
    have g1 : (a :: b :: c :: d :: e :: f :: g :: h :: t).getD 1 0 = b := rfl
    have g2 : (a :: b :: c :: d :: e :: f :: g :: h :: t).getD 2 0 = c := rfl
    have g3 : (a :: b :: c :: d :: e :: f :: g :: h :: t).getD 3 0 = d := rfl
    have g4 : (a :: b :: c :: d :: e :: f :: g :: h :: t).getD 4 0 = e := rfl
    have g5 : (a :: b :: c :: d :: e :: f :: g :: h :: t).getD 5 0 = f := rfl
    have g6 : (a :: b :: c :: d :: e :: f :: g :: h :: t).getD 6 0 = g := rfl
    have g7 : (a :: b :: c :: d :: e :: f :: g :: h :: t).getD 7 0 = h := rfl
    simp [pngSignature, g0, g1, g2, g3, g4, g5, g6, g7]



theorem parseChunksLoop_out_of_range (inflateRaw : List Nat → Option (List Nat))
    (data : List Nat) (offset : Nat) (h : ¬ offset < data.length - 12) :
    parseChunksLoop inflateRaw data offset = [] := by
  unfold parseChunksLoop
  rw [dif_neg h]

/-- C5: the PNG text-chunk analyzer never throws (it is a total function in
this embedding); a buffer whose first 8 bytes differ from the PNG signature
yields `found = false` with empty chunks and indicators, and repeated calls
agree; and a signature-carrying buffer whose second chunk header declares a
length running past the buffer's end still yields the tEXt chunk parsed
before that point. -/
theorem C5_png_parser_tolerance :
    (∀ (inflateRaw : List Nat → Option (List Nat)) (data : List Nat),
        data.take 8 ≠ pngSignature →
          analyzePngText inflateRaw data
              = { found := false, chunks := [], aiIndicators := [] }
            ∧ analyzePngText inflateRaw data = analyzePngText inflateRaw data)
    ∧ (∀ (inflateRaw : List Nat → Option (List Nat)) (keyB valB crc junk : List Nat)
        (L : Nat),
        (∀ b ∈ keyB, b ≠ 0) → keyB ≠ [] → crc.length = 4 →
        keyB.length + 1 + valB.length < 4294967296 → L < 4294967296 →
        9 ≤ junk.length → junk.length - 8 < L →
        parsePngTextChunks inflateRaw
            (pngSignature ++ (be32 (keyB.length + 1 + valB.length)
              ++ ([0x74, 0x45, 0x58, 0x74]
                ++ (keyB ++ ([0] ++ (valB ++ (crc ++ (be32 L ++ junk))))))))
          = [{ type := "tEXt", key := decodeString keyB, value := decodeString valB }]) := by
  constructor
  · intro inflateRaw data hsig
    have hfalse : isPNG data = false := by
      rcases Bool.eq_false_or_eq_true (isPNG data) with hb | hb
      · exact absurd ((isPNG_eq_true_iff data).mp hb) hsig
      · exact hb
    exact ⟨by simp [analyzePngText, hfalse], rfl⟩
  · intro inflateRaw keyB valB crc junk L h1 h2 h3 h4 h5 h6 h7
    exact parse_keeps_prefix_before_overrun inflateRaw keyB valB crc junk L h1 h2 h3 h4 h5 h6 h7

/-- Witness for C5 at concrete buffers. -/
theorem C5_png_parser_tolerance_witness :
    analyzePngText inflateNone [0, 1, 2]
        = { found := false, chunks := [], aiIndicators := [] }
      ∧ parsePngTextChunks inflateNone
          (pngSignature ++ (be32 ([0x70].length + 1 + [0x71].length)
            ++ ([0x74, 0x45, 0x58, 0x74]
              ++ ([0x70] ++ ([0] ++ ([0x71] ++ ([1, 2, 3, 4]
                ++ (be32 99 ++ [9, 9, 9, 9, 9, 9, 9, 9, 9]))))))))
          = [{ type := "tEXt", key := decodeString [0x70], value := decodeString [0x71] }] :=
  ⟨(C5_png_parser_tolerance.1 inflateNone [0, 1, 2] (by decide)).1,
    C5_png_parser_tolerance.2 inflateNone [0x70] [0x71] [1, 2, 3, 4]
      [9, 9, 9, 9, 9, 9, 9, 9, 9] 99
      (by decide) (by decide) rfl (by decide) (by decide) (by decide) (by decide)⟩

/-- C10: for a buffer carrying the PNG signature, `found = true` exactly when
at least one text chunk was extracted; zero extracted chunks give the empty
result, which contributes no medium-confidence signal downstream. -/
theorem C10_found_iff_extracted (inflateRaw : List Nat → Option (List Nat))
    (data : List Nat) (hsig : data.take 8 = pngSignature) :
    ((analyzePngText inflateRaw data).found = true
        ↔ parsePngTextChunks inflateRaw data ≠ [])
    ∧ (parsePngTextChunks inflateRaw data = [] →
        analyzePngText inflateRaw data
          = { found := false, chunks := [], aiIndicators := [] })
    ∧ (∀ (c2pa : C2PAResult) (md : MetadataResult),
        md.found = false → ¬(c2pa.present = true ∧ c2pa.validated = .valid) →
        parsePngTextChunks inflateRaw data = [] →
        calculateConfidence .NO_EVIDENCE ⟨c2pa, md, analyzePngText inflateRaw data⟩ = .low) := by
  have htrue : isPNG data = true := (isPNG_eq_true_iff data).mpr hsig
  have hempty : parsePngTextChunks inflateRaw data = [] →
      analyzePngText inflateRaw data
        = { found := false, chunks := [], aiIndicators := [] } := by
    intro hnil
    simp [analyzePngText, htrue, hnil]
  have hnonempty : parsePngTextChunks inflateRaw data ≠ [] →
      (analyzePngText inflateRaw data).found = true := by
    intro hne
    have hlen : ¬ (parsePngTextChunks inflateRaw data).length = 0 := by
      simpa [List.length_eq_zero] using hne
    simp [analyzePngText, htrue, hlen]
  refine ⟨⟨?_, hnonempty⟩, hempty, ?_⟩
  · intro hfound
    intro hnil
    rw [hempty hnil] at hfound
    simp at hfound
  · intro c2pa md hmd hc2pa hnil
    rw [hempty hnil]
    cases hpres : c2pa.present
    · simp [calculateConfidence, hpres, hmd]
    · have hval : ¬ c2pa.validated = .valid := fun hv => hc2pa ⟨hpres, hv⟩
      simp [calculateConfidence, hpres, hval, hmd]

/-- Witness for C10: a bare signature-only PNG. -/
theorem C10_found_iff_extracted_witness :
    analyzePngText inflateNone pngSignature
      = { found := false, chunks := [], aiIndicators := [] } :=
  (C10_found_iff_extracted inflateNone pngSignature (by decide)).2.1
    (parseChunksLoop_out_of_range inflateNone pngSignature 8 (by decide))



theorem fetchImageInPage_le (env : FetchEnv) (b : List Nat)
    (h : fetchImageInPage env = .ok b) : b.length ≤ MAX_IMAGE_SIZE := by
  unfold fetchImageInPage at h
  dsimp only at h
  split at h
  · simp at h
  · split at h
    · simp at h
    · rename_i buffer hle
      simp only [Except.ok.injEq] at h
      subst h
      omega

theorem fetchInPageContext_le (env : FetchEnv) (b : List Nat)
    (h : fetchInPageContext env = .ok b) : b.length ≤ MAX_IMAGE_SIZE := by
  unfold fetchInPageContext at h
  split at h
  · exact fetchImageInPage_le env b h
  · simp at h

theorem fetchFileInIsolated_le (env : FetchEnv) (b : List Nat)
    (h : fetchFileInIsolated env = .ok b) : b.length ≤ MAX_IMAGE_SIZE := by
  unfold fetchFileInIsolated fetchFileInIsolatedWorld at h
  split at h
  · split at h
    · simp at h
    · split at h
      · simp at h
      · rename_i buffer hle
        simp only [Except.ok.injEq] at h
        subst h
        omega
  · simp at h

theorem fetchHttpImageDirect_le (env : FetchEnv) (b : List Nat)
    (h : fetchHttpImageDirect env = .ok b) : b.length ≤ MAX_IMAGE_SIZE := by
  unfold fetchHttpImageDirect at h
  split at h
  · simp at h
  · split at h
    · simp at h
    · split at h
      · simp at h
      · rename_i hle
        simp only [Except.ok.injEq] at h
        subst h
        omega



theorem getImageBytes_le (env : FetchEnv) (url : String) (b : List Nat)
    (h : getImageBytes env url = .ok b) : b.length ≤ MAX_IMAGE_SIZE := by
  unfold getImageBytes at h
  split at h
  · simp at h
  split at h
  · -- data: branch
    split at h
    · simp at h
    · split at h
      · simp at h
      · rename_i hle
        simp only [Except.ok.injEq] at h
        subst h
        omega
  split at h
  · -- file:// branch
    split at h
    · rename_i bb hiso
      simp only [Except.ok.injEq] at h
      subst h
      exact fetchFileInIsolated_le env bb hiso
    · split at h
      · split at h
        · exact fetchInPageContext_le env b h
        · rename_i hle
          simp only [Except.ok.injEq] at h
          subst h
          omega
      · exact fetchInPageContext_le env b h
  split at h
  · exact fetchInPageContext_le env b h
  split at h
  · -- http(s) branch
    split at h
    · split at h
      · rename_i bb hd
        simp only [Except.ok.injEq] at h
        subst h
        exact fetchHttpImageDirect_le env bb hd
      · exact fetchInPageContext_le env b h
    · exact fetchInPageContext_le env b h
  · simp at h

theorem leadsWithL_cons (a : Char) (as l : List Char)
    (h : leadsWithL (a :: as) l = true) : ∃ t, l = a :: t := by
  cases l with
  | nil => simp [leadsWithL] at h
  | cons b bs =>
    simp only [leadsWithL, Bool.and_eq_true, beq_iff_eq] at h
    exact ⟨bs, by rw [h.1]⟩

theorem jsStartsWith_http_excl (url : String)
    (h : (jsStartsWith url "http://" || jsStartsWith url "https://") = true) :
    url ≠ "" ∧ jsStartsWith url "data:" = false ∧ jsStartsWith url "file://" = false
      ∧ jsStartsWith url "blob:" = false := by
  have hh : ∃ t, url.data = 'h' :: t := by
    rcases (Bool.or_eq_true _ _).mp h with h1 | h1
    · unfold jsStartsWith at h1
      rw [show "http://".data = ['h', 't', 't', 'p', ':', '/', '/'] from rfl] at h1
      exact leadsWithL_cons 'h' _ _ h1
    · unfold jsStartsWith at h1
      rw [show "https://".data = ['h', 't', 't', 'p', 's', ':', '/', '/'] from rfl] at h1
      exact leadsWithL_cons 'h' _ _ h1
  obtain ⟨t, ht⟩ := hh
  refine ⟨?_, ?_, ?_, ?_⟩
  · intro he
    rw [he] at ht
    simp at ht
  · unfold jsStartsWith
    rw [show "data:".data = ['d', 'a', 't', 'a', ':'] from rfl, ht]
    simp [leadsWithL]
  · unfold jsStartsWith
    rw [show "file://".data = ['f', 'i', 'l', 'e', ':', '/', '/'] from rfl, ht]
    simp [leadsWithL]
  · unfold jsStartsWith
    rw [show "blob:".data = ['b', 'l', 'o', 'b', ':'] from rfl, ht]
    simp [leadsWithL]

/-- C7 amended: for a remote HTTP(S) locator without a host grant,
`getImageBytes` makes no permission request and raises no permission-denied
error; it delegates the fetch to the hosting page's execution context
(the direct service-worker fetch is never consulted). -/
theorem C7_amended_delegates_to_page (env : FetchEnv) (url : String)
    (hscheme : (jsStartsWith url "http://" || jsStartsWith url "https://") = true)
    (hnoperm : env.hasHostPermission = false) :
    getImageBytes env url = fetchInPageContext env := by
  obtain ⟨hne, hdata, hfile, hblob⟩ := jsStartsWith_http_excl url hscheme
  unfold getImageBytes
  rw [if_neg hne, if_neg (by simp [hdata]), if_neg (by simp [hfile]),
    if_neg (by simp [hblob]), if_pos hscheme, if_neg (by simp [hnoperm])]

/-- C7 counterexample: with no host grant and a successful in-page fetch,
`getImageBytes` on a remote locator succeeds with the page-fetched bytes
instead of failing with a permission-denied error. -/
theorem C7_counterexample_page_fetch :
    getImageBytes envC7 "http://example.com/a.png" = .ok [1, 2, 3] := by rfl



theorem string_data_append (s t : String) : (s ++ t).data = s.data ++ t.data := by
  cases s
  cases t
  rfl

theorem b64Sextet_b64Char (i : Nat) (h : i < 64) : b64Sextet (b64Char i) = some i := by
  have hall : ∀ j : Fin 64, b64Sextet (b64Char j.val) = some j.val := by decide
  exact hall ⟨i, h⟩

theorem b64Char_ne_pad (i : Nat) (h : i < 64) : b64Char i ≠ '=' := by
  have hall : ∀ j : Fin 64, b64Char j.val ≠ '=' := by decide
  exact hall ⟨i, h⟩

theorem b64Char_not_ws (j : Nat) : isB64Whitespace (b64Char j) = false := by
  by_cases hj : j < 64
  · have hall : ∀ i : Fin 64, isB64Whitespace (b64Char i.val) = false := by decide
    exact hall ⟨j, hj⟩
  · unfold b64Char
    rw [List.getD_eq_default]
    · rfl
    · simpa [b64Alphabet] using hj

theorem b64Encode_chars (bytes : List Nat) (c : Char)
    (hc : c ∈ (b64Encode bytes).data) : (∃ j, c = b64Char j) ∨ c = '=' := by
  revert hc
  induction bytes using b64Encode.induct with
  | case1 =>
    intro hc
    simp [b64Encode] at hc
  | case2 a =>
    intro hc
    simp only [b64Encode] at hc
    rcases List.mem_cons.mp hc with h | hc
    · exact .inl ⟨_, h⟩
    rcases List.mem_cons.mp hc with h | hc
    · exact .inl ⟨_, h⟩
    rcases List.mem_cons.mp hc with h | hc
    · exact .inr h
    rcases List.mem_cons.mp hc with h | hc
    · exact .inr h
    · simp at hc
  | case3 a b =>
    intro hc
    simp only [b64Encode] at hc
    rcases List.mem_cons.mp hc with h | hc
    · exact .inl ⟨_, h⟩
    rcases List.mem_cons.mp hc with h | hc
    · exact .inl ⟨_, h⟩
    rcases List.mem_cons.mp hc with h | hc
    · exact .inl ⟨_, h⟩
    rcases List.mem_cons.mp hc with h | hc
    · exact .inr h
    · simp at hc
  | case4 a b cc rest ih =>
    intro hc
    rw [b64Encode, string_data_append] at hc
    rcases List.mem_append.mp hc with hc | hc
    · rcases List.mem_cons.mp hc with h | hc
      · exact .inl ⟨_, h⟩
      rcases List.mem_cons.mp hc with h | hc
      · exact .inl ⟨_, h⟩
      rcases List.mem_cons.mp hc with h | hc
      · exact .inl ⟨_, h⟩
      rcases List.mem_cons.mp hc with h | hc
      · exact .inl ⟨_, h⟩
      · simp at hc
    · exact ih hc

theorem b64Encode_filter_ws (bytes : List Nat) :
    ((b64Encode bytes).data.filter fun c => !isB64Whitespace c) = (b64Encode bytes).data := by
  rw [List.filter_eq_self]
  intro c hc
  rcases b64Encode_chars bytes c hc with ⟨j, rfl⟩ | rfl
  · simp [b64Char_not_ws]
  · decide



theorem b64DecodeChars_encode (bytes : List Nat) (hb : ∀ x ∈ bytes, x < 256) :
    b64DecodeChars (b64Encode bytes).data = some bytes := by
  induction bytes using b64Encode.induct with
  | case1 => rfl
  | case2 a =>
    have ha : a < 256 := hb a (by simp)
    have h1 := b64Sextet_b64Char (a / 4) (by omega)
    have h2 := b64Sextet_b64Char (a % 4 * 16) (by omega)
    simp only [b64Encode, b64DecodeChars]
    simp [h1, h2]
    omega
  | case3 a b =>
    have ha : a < 256 := hb a (by simp)
    have hbb : b < 256 := hb b (by simp)
    have h1 := b64Sextet_b64Char (a / 4) (by omega)
    have h2 := b64Sextet_b64Char (a % 4 * 16 + b / 16) (by omega)
    have h3 := b64Sextet_b64Char (b % 16 * 4) (by omega)
    have hne : b64Char (b % 16 * 4) ≠ '=' := b64Char_ne_pad _ (by omega)
    simp only [b64Encode, b64DecodeChars]
    simp [h1, h2, h3, hne]
    omega
  | case4 a b c rest ih =>
    have ha : a < 256 := hb a (by simp)
    have hbb : b < 256 := hb b (by simp)
    have hc : c < 256 := hb c (by simp)
    have h1 := b64Sextet_b64Char (a / 4) (by omega)
    have h2 := b64Sextet_b64Char (a % 4 * 16 + b / 16) (by omega)
    have h3 := b64Sextet_b64Char (b % 16 * 4 + c / 64) (by omega)
    have h4 := b64Sextet_b64Char (c % 64) (by omega)
    have hne3 : b64Char (b % 16 * 4 + c / 64) ≠ '=' := b64Char_ne_pad _ (by omega)
    have hne4 : b64Char (c % 64) ≠ '=' := b64Char_ne_pad _ (by omega)
    have ihr := ih fun x hx => hb x (by simp [hx])
    rw [b64Encode, string_data_append]
    show b64DecodeChars (_ :: _ :: _ :: _ :: (b64Encode rest).data) = _
    rw [b64DecodeChars]
    simp [hne3, hne4, h1, h2, h3, h4, ihr]
    refine ⟨by omega, by omega, by omega⟩



theorem decodeDataUrl_encode (bytes : List Nat) (hb : ∀ x ∈ bytes, x < 256) :
    decodeDataUrl (encodeInlineLocator bytes) = .ok bytes := by
  have hdata : (encodeInlineLocator bytes).data
      = "data:image/png;base64".data ++ ',' :: (b64Encode bytes).data := by
    unfold encodeInlineLocator
    rw [string_data_append]
    rfl
  unfold decodeDataUrl
  rw [hdata, jsFindIndex_append_cons ',' _ _ (by decide)]
  rw [show ("data:image/png;base64".data.length) = 21 from rfl]
  show (match atobBytes ⟨(("data:image/png;base64".data ++ ',' :: (b64Encode bytes).data).drop (21 + 1))⟩ with
    | none => Except.error "InvalidCharacterError"
    | some bs => Except.ok bs) = Except.ok bytes
  rw [show "data:image/png;base64".data ++ ',' :: (b64Encode bytes).data
      = ("data:image/png;base64".data ++ [',']) ++ (b64Encode bytes).data from by simp]
  rw [List.drop_left' (by rfl)]
  show (match atobBytes (b64Encode bytes) with
    | none => Except.error "InvalidCharacterError"
    | some bs => Except.ok bs) = Except.ok bytes
  unfold atobBytes
  rw [b64Encode_filter_ws, b64DecodeChars_encode bytes hb]



/-- C9: encoding any byte sequence (within the 25 MB ceiling) as a base64
inline data locator and passing it through the inline-decoding path of
`getImageBytes` reproduces the original bytes exactly. -/
theorem C9_inline_roundtrip (bytes : List Nat) (env : FetchEnv)
    (hb : ∀ x ∈ bytes, x < 256) (hsize : bytes.length ≤ MAX_IMAGE_SIZE) :
    getImageBytes env (encodeInlineLocator bytes) = .ok bytes := by
  have hdec := decodeDataUrl_encode bytes hb
  have hne : encodeInlineLocator bytes ≠ "" := by
    intro he
    have h2 := congrArg String.data he
    unfold encodeInlineLocator at h2
    rw [string_data_append,
      show "data:image/png;base64,".data
        = 'd' :: "ata:image/png;base64,".data from rfl] at h2
    simp at h2
  have hstart : jsStartsWith (encodeInlineLocator bytes) "data:" = true := by
    unfold jsStartsWith encodeInlineLocator
    rw [string_data_append, show "data:".data = ['d', 'a', 't', 'a', ':'] from rfl,
      show "data:image/png;base64,".data
        = 'd' :: 'a' :: 't' :: 'a' :: ':' :: "image/png;base64,".data from rfl]
    simp [leadsWithL]
  unfold getImageBytes
  rw [if_neg hne, if_pos hstart, hdec]
  dsimp only
  rw [if_neg (by omega : ¬ MAX_IMAGE_SIZE < bytes.length)]

/-- Witness for C9 at a concrete byte sequence. -/
theorem C9_inline_roundtrip_witness :
    getImageBytes envBase (encodeInlineLocator [0, 77, 255]) = .ok [0, 77, 255] :=
  C9_inline_roundtrip [0, 77, 255] envBase (by decide) (by decide)

/-- C6: `getImageBytes` never returns a buffer longer than 25 MB on any
retrieval path, and the direct HTTP fetch rejects an oversized declared
content length with a size-exceeded error before the body is consumed. -/
theorem C6_size_ceiling :
    (∀ (env : FetchEnv) (url : String) (b : List Nat),
        getImageBytes env url = .ok b → b.length ≤ MAX_IMAGE_SIZE)
    ∧ (∀ (env : FetchEnv) (n : Nat), env.directOk = true →
        env.directContentLength = some n → MAX_IMAGE_SIZE < n →
        fetchHttpImageDirect env
          = .error ("Image too large: " ++ toString n ++ " bytes (max "
              ++ toString MAX_IMAGE_SIZE ++ ")")) := by
  constructor
  · exact getImageBytes_le
  · intro env n hok hcl hbig
    simp [fetchHttpImageDirect, hok, hcl, hbig]

/-- Witness for C6 at concrete environments. -/
theorem C6_size_ceiling_witness :
    ([7, 7] : List Nat).length ≤ MAX_IMAGE_SIZE
      ∧ fetchHttpImageDirect envC6big
          = .error ("Image too large: " ++ toString (MAX_IMAGE_SIZE + 1)
              ++ " bytes (max " ++ toString MAX_IMAGE_SIZE ++ ")") :=
  ⟨C6_size_ceiling.1 envC6 "http://x/i.png" [7, 7] (by rfl),
    C6_size_ceiling.2 envC6big (MAX_IMAGE_SIZE + 1) rfl rfl (by omega)⟩

/-- Witness for the amended C7 at a concrete environment and locator. -/
theorem C7_amended_witness_page :
    getImageBytes envC7 "http://a.example/img.png" = fetchInPageContext envC7 :=
  C7_amended_delegates_to_page envC7 "http://a.example/img.png" (by decide) rfl

end GenSnitch
